import Mathlib

/-!
Verification development for the rtx-kg2-gateway pipeline.

We give a shallow embedding of the pure logic of the repository:
the schema-to-DDL translator (`kuzu_utils/kz_create.py` and its
notebook duplicate in `notebooks/rtx_kg2_functions.py`), the retrying
bulk loader (`kuzu_utils/kz_copy.py` and its notebook duplicate), the
chunked item reader (`parse_items_by_topmost_item_name`), the row-count
validation step of `rtx_kg2_full_json_to_parquet.py`, and the operation
traces emitted by `create_kuzu_tables` / `ingest_data_to_kuzu_tables`
as sequenced by `rtx_kg2_to_kuzu/run.py`.
-/

namespace RtxKg2

/-! ### String helpers

`joinComma` embeds Python's `", ".join(...)`; `IsSubstr` is the
propositional substring relation used to state which fragments appear
in a generated statement; `strContainsSub` embeds Python's
`needle in haystack` test on strings (used by the retry loop).
-/

def joinComma : List String → String
  | [] => ""
  | [s] => s
  | s :: rest => s ++ ", " ++ joinComma rest

def IsSubstr (needle hay : String) : Prop :=
  ∃ p q : String, hay = p ++ needle ++ q

def charsContains (needle hay : List Char) : Bool :=
  (List.range (hay.length + 1)).any fun i => needle.isPrefixOf (hay.drop i)

def strContainsSub (hay needle : String) : Bool :=
  charsContains needle.data hay.data

theorem strAppend_assoc (a b c : String) : a ++ b ++ c = a ++ (b ++ c) := by
  apply String.ext
  simp [String.data_append, List.append_assoc]

theorem isSubstr_self (x : String) : IsSubstr x x :=
  ⟨"", "", by simp [String.empty_append, String.append_empty]⟩

theorem IsSubstr.appendLeft (h : IsSubstr x s) (a : String) : IsSubstr x (a ++ s) := by
  obtain ⟨p, q, rfl⟩ := h
  exact ⟨a ++ p, q, by simp [strAppend_assoc]⟩

theorem IsSubstr.appendRight (h : IsSubstr x s) (b : String) : IsSubstr x (s ++ b) := by
  obtain ⟨p, q, rfl⟩ := h
  exact ⟨p, q ++ b, by simp [strAppend_assoc]⟩

theorem isSubstr_joinComma : ∀ (l : List String) (x : String), x ∈ l → IsSubstr x (joinComma l)
  | [], x, hx => absurd hx (List.not_mem_nil x)
  | [a], x, hx => by
    rw [List.mem_singleton.mp hx]
    exact isSubstr_self a
  | a :: b :: t, x, hx => by
    rcases List.mem_cons.mp hx with rfl | h
    · exact ((isSubstr_self x).appendRight ", ").appendRight (joinComma (b :: t))
    · exact (isSubstr_joinComma (b :: t) x h).appendLeft (a ++ ", ")

/-! ### Schema-to-DDL translator

Embeds `generate_cypher_table_create_stmt_from_parquet_path`
(`kuzu_utils/kz_create.py`) and the notebook duplicate
`generate_cypher_table_create_stmt_from_parquet_file`
(`notebooks/rtx_kg2_functions.py`).  A parquet schema is the ordered
list of (field name, physical type string) pairs that
`parquet.read_schema` yields; reading the file itself is external I/O,
so the schema is the model's input.  Python's `raise LookupError`
becomes `Except.error`.
-/

structure PField where
  name : String
  ftype : String
deriving DecidableEq, Repr

inductive TblType
  | node
  | rel
deriving DecidableEq, Repr

/-- The fixed `parquet_to_cypher_type_mapping` dict of both translator copies. -/
def parquet_to_cypher_type_mapping : List (String × String) :=
  [("string", "STRING"),
   ("int32", "INT32"),
   ("int64", "INT64"),
   ("number", "FLOAT"),
   ("float", "FLOAT"),
   ("double", "FLOAT"),
   ("boolean", "BOOLEAN"),
   ("object", "MAP"),
   ("array", "INT64[]"),
   ("list<element: string>", "STRING[]"),
   ("null", "NULL"),
   ("date", "DATE"),
   ("time", "TIME"),
   ("datetime", "DATETIME"),
   ("timestamp", "DATETIME"),
   ("any", "ANY")]

/-- Python `dict.get`: `none` when the physical type string is unmapped. -/
def lookupType (t : String) : Option String :=
  (parquet_to_cypher_type_mapping.find? fun p => p.1 == t).map Prod.snd

/-- How a Python f-string renders the result of `dict.get`: `None` becomes
the literal text `None`, a present value renders as itself. -/
def optRepr : Option String → String
  | some s => s
  | none => "None"

/-- One element of the `cypher_fields_from_parquet_schema` comprehension:
`f"{field.name} {parquet_to_cypher_type_mapping.get(str(field.type))}"`. -/
def colStr (f : PField) : String :=
  f.name ++ " " ++ optRepr (lookupType f.ftype)

/-- The comprehension filter `table_type == "node" or (table_type == "rel" and idx > 1)`
over `enumerate(parquet_schema)`, rendered as an indexed recursion. -/
def cypherFieldStrs (table_type : TblType) : Nat → List PField → List String
  | _, [] => []
  | idx, f :: rest =>
    if table_type = TblType.node ∨ (table_type = TblType.rel ∧ idx > 1) then
      colStr f :: cypherFieldStrs table_type (idx + 1) rest
    else
      cypherFieldStrs table_type (idx + 1) rest

def cypher_fields_from_parquet_schema (table_type : TblType) (schema : List PField) : String :=
  joinComma (cypherFieldStrs table_type 0 schema)

/-- One `FROM {subj} TO {obj}` clause. -/
def fromToStr (p : String × String) : String :=
  "FROM " ++ p.1 ++ " TO " ++ p.2

/-- Embedding of `generate_cypher_table_create_stmt_from_parquet_path`
(`kuzu_utils/kz_create.py`).  The original's second message fragment is a
non-f-string, so the literal text `\x7bparquet_path\x7d` appears in the
raised message; we reproduce that. -/
def generate_cypher_table_create_stmt_from_parquet_path
    (parquet_schema : List PField) (table_type : TblType) (table_name : String)
    (rel_table_field_mapping : List (String × String))
    (table_pkey_parquet_field_name : String) : Except String String :=
  let fields := cypher_fields_from_parquet_schema table_type parquet_schema
  match table_type with
  | TblType.node =>
    if table_pkey_parquet_field_name ∈ parquet_schema.map PField.name then
      Except.ok ("CREATE NODE TABLE " ++ table_name ++ "(" ++ fields ++ ", " ++
        "PRIMARY KEY (" ++ table_pkey_parquet_field_name ++ "))")
    else
      Except.error ("Unable to find field " ++ table_pkey_parquet_field_name ++
        " in parquet file \x7bparquet_path\x7d.")
  | TblType.rel =>
    let subj_and_objs := joinComma (rel_table_field_mapping.map fromToStr)
    let rel_tbl_start :=
      if rel_table_field_mapping.length = 1 then
        "CREATE REL TABLE " ++ table_name
      else
        "CREATE REL TABLE GROUP " ++ table_name
    Except.ok (rel_tbl_start ++ " (" ++ subj_and_objs ++ ", " ++ fields ++ ")")

/-- Embedding of the notebook duplicate
`generate_cypher_table_create_stmt_from_parquet_file`
(`notebooks/rtx_kg2_functions.py`): the primary-key check runs first for
every table type, and the relationship branch always emits a single
`FROM ... TO ...` clause from its from/to mapping. -/
def generate_cypher_table_create_stmt_from_parquet_file
    (parquet_schema : List PField) (table_type : TblType) (table_name : String)
    (table_pkey_parquet_field_name : String)
    (rel_table_field_mapping : String × String) : Except String String :=
  if table_pkey_parquet_field_name ∈ parquet_schema.map PField.name then
    let fields := cypher_fields_from_parquet_schema table_type parquet_schema
    match table_type with
    | TblType.node =>
      Except.ok ("CREATE NODE TABLE " ++ table_name ++ "(" ++ fields ++ ", " ++
        "PRIMARY KEY (" ++ table_pkey_parquet_field_name ++ "))")
    | TblType.rel =>
      Except.ok ("CREATE REL TABLE " ++ table_name ++
        "(FROM " ++ rel_table_field_mapping.1 ++ " TO " ++ rel_table_field_mapping.2 ++
        ", " ++ fields ++ ")")
  else
    Except.error ("Unable to find field " ++ table_pkey_parquet_field_name ++
      " in parquet file <parquet_file>.")

/-- The value part of an `Except`: used to compare the two translator
copies while ignoring the exact error message text. -/
def okPart : Except String String → Option String
  | Except.ok s => some s
  | Except.error _ => none

/-- The columns a generated statement carries: all of them for a node
table, everything after the first two (the endpoint references) for a
relationship table. -/
def emittedFields (table_type : TblType) (schema : List PField) : List PField :=
  match table_type with
  | TblType.node => schema
  | TblType.rel => schema.drop 2

theorem cypherFieldStrs_node_eq (schema : List PField) :
    ∀ idx, cypherFieldStrs TblType.node idx schema = schema.map colStr := by
  induction schema with
  | nil => intro idx; rfl
  | cons f rest ih =>
    intro idx
    simp [cypherFieldStrs, ih]

theorem cypherFieldStrs_rel_ge2 (schema : List PField) :
    ∀ idx, 2 ≤ idx → cypherFieldStrs TblType.rel idx schema = schema.map colStr := by
  induction schema with
  | nil => intro idx _; rfl
  | cons f rest ih =>
    intro idx hidx
    have h1 : 1 < idx := hidx
    simp [cypherFieldStrs, h1, ih (idx + 1) (by omega)]

theorem cypherFieldStrs_rel_zero (schema : List PField) :
    cypherFieldStrs TblType.rel 0 schema = (schema.drop 2).map colStr := by
  match schema with
  | [] => rfl
  | [f] => rfl
  | f :: g :: rest =>
    show cypherFieldStrs TblType.rel 0 (f :: g :: rest) = rest.map colStr
    simp [cypherFieldStrs, cypherFieldStrs_rel_ge2 rest 2 (by omega)]

example : joinComma ["a", "b", "c"] = "a, b, c" := by decide

example :
    generate_cypher_table_create_stmt_from_parquet_path
      [⟨"id", "string"⟩, ⟨"name", "string"⟩] TblType.node "T" [] "id" =
    Except.ok "CREATE NODE TABLE T(id STRING, name STRING, PRIMARY KEY (id))" := rfl

/-- The schema of the spec's node DDL example: three string columns. -/
def exNodeSchema : List PField :=
  [⟨"id", "string"⟩, ⟨"category", "string"⟩, ⟨"name", "string"⟩]

/-- A relationship-table schema with the two endpoint columns first and
one payload column, and no column named `id`. -/
def exRelSchema : List PField :=
  [⟨"subject", "string"⟩, ⟨"object", "string"⟩, ⟨"payload", "string"⟩]

/-- Claim C5: for node tables the DDL translator returns a CREATE NODE
TABLE statement containing every column of the input parquet schema and
a PRIMARY KEY clause naming the given primary-key field; when that
field is absent from the schema it raises a lookup error instead. -/
theorem claim_C5_node_table_ddl (schema : List PField) (table_name pk : String)
    (pairs : List (String × String)) :
    (pk ∈ schema.map PField.name →
      ∃ stmt,
        generate_cypher_table_create_stmt_from_parquet_path schema TblType.node
            table_name pairs pk = Except.ok stmt ∧
        (∀ f ∈ schema, IsSubstr (colStr f) stmt) ∧
        IsSubstr ("PRIMARY KEY (" ++ pk ++ ")") stmt) ∧
    (pk ∉ schema.map PField.name →
      ∃ msg,
        generate_cypher_table_create_stmt_from_parquet_path schema TblType.node
            table_name pairs pk = Except.error msg) := by
  constructor
  · intro h
    refine ⟨"CREATE NODE TABLE " ++ table_name ++ "(" ++
        cypher_fields_from_parquet_schema TblType.node schema ++ ", " ++
        "PRIMARY KEY (" ++ pk ++ "))", ?_, ?_, ?_⟩
    · simp [generate_cypher_table_create_stmt_from_parquet_path, h]
    · intro f hf
      have hmem : colStr f ∈ cypherFieldStrs TblType.node 0 schema := by
        rw [cypherFieldStrs_node_eq schema 0]
        exact List.mem_map_of_mem colStr hf
      have hx : IsSubstr (colStr f) (cypher_fields_from_parquet_schema TblType.node schema) :=
        isSubstr_joinComma _ _ hmem
      exact ((((hx.appendLeft ("CREATE NODE TABLE " ++ table_name ++ "(")).appendRight
        ", ").appendRight "PRIMARY KEY (").appendRight pk).appendRight "))"
    · refine ⟨"CREATE NODE TABLE " ++ table_name ++ "(" ++
        cypher_fields_from_parquet_schema TblType.node schema ++ ", ", ")", ?_⟩
      have h2 : ("))" : String) = ")" ++ ")" := rfl
      rw [h2]
      apply String.ext
      simp only [String.data_append, List.append_assoc]
  · intro h
    refine ⟨"Unable to find field " ++ pk ++ " in parquet file \x7bparquet_path\x7d.", ?_⟩
    simp [generate_cypher_table_create_stmt_from_parquet_path, h]

/-- Claim C5 witness: the spec's example schema and primary key `id`. -/
theorem claim_C5_witness :
    ("id" ∈ exNodeSchema.map PField.name) ∧
    (∃ stmt,
      generate_cypher_table_create_stmt_from_parquet_path exNodeSchema TblType.node
          "TestNode" [] "id" = Except.ok stmt ∧
      (∀ f ∈ exNodeSchema, IsSubstr (colStr f) stmt) ∧
      IsSubstr ("PRIMARY KEY (" ++ "id" ++ ")") stmt) :=
  ⟨by decide, (claim_C5_node_table_ddl exNodeSchema "TestNode" "id" []).1 (by decide)⟩

/-- Claim C6: for relationship tables the translator skips the first two
schema columns, emits the remainder as payload columns, emits one
FROM/TO clause per supplied pair, and chooses plain CREATE REL TABLE
for exactly one pair versus CREATE REL TABLE GROUP otherwise. -/
theorem claim_C6_rel_table_ddl (schema : List PField) (table_name pk : String)
    (pairs : List (String × String)) :
    ∃ stmt,
      generate_cypher_table_create_stmt_from_parquet_path schema TblType.rel
          table_name pairs pk = Except.ok stmt ∧
      stmt = (if pairs.length = 1 then "CREATE REL TABLE " ++ table_name
              else "CREATE REL TABLE GROUP " ++ table_name) ++ " (" ++
             joinComma (pairs.map fromToStr) ++ ", " ++
             joinComma ((schema.drop 2).map colStr) ++ ")" ∧
      ∀ p ∈ pairs, IsSubstr ("FROM " ++ p.1 ++ " TO " ++ p.2) stmt := by
  refine ⟨(if pairs.length = 1 then "CREATE REL TABLE " ++ table_name
      else "CREATE REL TABLE GROUP " ++ table_name) ++ " (" ++
      joinComma (pairs.map fromToStr) ++ ", " ++
      cypher_fields_from_parquet_schema TblType.rel schema ++ ")", ?_, ?_, ?_⟩
  · simp [generate_cypher_table_create_stmt_from_parquet_path]
  · simp [cypher_fields_from_parquet_schema, cypherFieldStrs_rel_zero]
  · intro p hp
    have hmem : fromToStr p ∈ pairs.map fromToStr := List.mem_map_of_mem _ hp
    have hx : IsSubstr (fromToStr p) (joinComma (pairs.map fromToStr)) :=
      isSubstr_joinComma _ _ hmem
    exact (((hx.appendLeft _).appendRight ", ").appendRight _).appendRight ")"

/-- Claim C7: a physical type string absent from the fixed mapping does
not make DDL generation raise; the null lookup result is rendered as
the literal token None inside the returned statement. -/
theorem claim_C7_unmapped_type_silent (schema : List PField) (table_type : TblType)
    (table_name pk : String) (pairs : List (String × String))
    (hok : table_type = TblType.rel ∨ pk ∈ schema.map PField.name) :
    ∃ stmt,
      generate_cypher_table_create_stmt_from_parquet_path schema table_type
          table_name pairs pk = Except.ok stmt ∧
      ∀ f ∈ emittedFields table_type schema, lookupType f.ftype = none →
        IsSubstr (f.name ++ " None") stmt := by
  have hcol : ∀ f : PField, lookupType f.ftype = none → colStr f = f.name ++ " None" := by
    intro f hf
    have hlit : (" " : String) ++ "None" = " None" := rfl
    rw [colStr, hf, optRepr, strAppend_assoc, hlit]
  cases table_type with
  | node =>
    have hpk : pk ∈ schema.map PField.name := by
      rcases hok with hr | hpk
      · exact absurd hr (by simp)
      · exact hpk
    refine ⟨"CREATE NODE TABLE " ++ table_name ++ "(" ++
        cypher_fields_from_parquet_schema TblType.node schema ++ ", " ++
        "PRIMARY KEY (" ++ pk ++ "))", ?_, ?_⟩
    · simp [generate_cypher_table_create_stmt_from_parquet_path, hpk]
    · intro f hf hnone
      have hmem : colStr f ∈ cypherFieldStrs TblType.node 0 schema := by
        rw [cypherFieldStrs_node_eq schema 0]
        exact List.mem_map_of_mem colStr hf
      have hx : IsSubstr (colStr f) (cypher_fields_from_parquet_schema TblType.node schema) :=
        isSubstr_joinComma _ _ hmem
      rw [hcol f hnone] at hx
      exact ((((hx.appendLeft ("CREATE NODE TABLE " ++ table_name ++ "(")).appendRight
        ", ").appendRight "PRIMARY KEY (").appendRight pk).appendRight "))"
  | rel =>
    refine ⟨(if pairs.length = 1 then "CREATE REL TABLE " ++ table_name
        else "CREATE REL TABLE GROUP " ++ table_name) ++ " (" ++
        joinComma (pairs.map fromToStr) ++ ", " ++
        cypher_fields_from_parquet_schema TblType.rel schema ++ ")", ?_, ?_⟩
    · simp [generate_cypher_table_create_stmt_from_parquet_path]
    · intro f hf hnone
      have hmem : colStr f ∈ cypherFieldStrs TblType.rel 0 schema := by
        rw [cypherFieldStrs_rel_zero schema]
        exact List.mem_map_of_mem colStr hf
      have hx : IsSubstr (colStr f) (cypher_fields_from_parquet_schema TblType.rel schema) :=
        isSubstr_joinComma _ _ hmem
      rw [hcol f hnone] at hx
      exact (hx.appendLeft _).appendRight ")"

/-- Claim C7 witness: a node schema with one unmapped physical type. -/
theorem claim_C7_witness :
    (TblType.node = TblType.rel ∨
      "id" ∈ ([⟨"id", "string"⟩, ⟨"weird", "sometype"⟩] : List PField).map PField.name) ∧
    (∃ stmt,
      generate_cypher_table_create_stmt_from_parquet_path
          [⟨"id", "string"⟩, ⟨"weird", "sometype"⟩] TblType.node "W" [] "id"
        = Except.ok stmt ∧
      ∀ f ∈ emittedFields TblType.node [⟨"id", "string"⟩, ⟨"weird", "sometype"⟩],
        lookupType f.ftype = none → IsSubstr (f.name ++ " None") stmt) :=
  ⟨Or.inr (by decide),
    claim_C7_unmapped_type_silent [⟨"id", "string"⟩, ⟨"weird", "sometype"⟩]
      TblType.node "W" "id" [] (Or.inr (by decide))⟩

/-- Claim C9 counterexample: on a relationship schema without a column
named `id` and one supplied type pair, the module translator returns a
statement while the notebook duplicate raises a lookup error on its
primary-key check, so the two do not implement the same logic. -/
theorem claim_C9_counterexample :
    okPart (generate_cypher_table_create_stmt_from_parquet_path exRelSchema TblType.rel
        "Payload" [("A", "B")] "id")
      = some "CREATE REL TABLE Payload (FROM A TO B, payload STRING)" ∧
    okPart (generate_cypher_table_create_stmt_from_parquet_file exRelSchema TblType.rel
        "Payload" "id" ("A", "B"))
      = none :=
  ⟨rfl, rfl⟩

/-- Claim C9 amended: the two translator copies agree on node tables:
for every schema, table name and primary-key field they either both
raise or both return the identical statement. -/
theorem claim_C9_node_translator_equiv (schema : List PField) (table_name pk : String)
    (pairs : List (String × String)) (mp : String × String) :
    okPart (generate_cypher_table_create_stmt_from_parquet_path schema TblType.node
        table_name pairs pk)
      = okPart (generate_cypher_table_create_stmt_from_parquet_file schema TblType.node
        table_name pk mp) := by
  by_cases h : pk ∈ schema.map PField.name <;>
    simp [generate_cypher_table_create_stmt_from_parquet_path,
      generate_cypher_table_create_stmt_from_parquet_file, okPart, h]

/-! ### Retrying bulk loader

Embeds `kz_execute_with_retries` from `kuzu_utils/kz_copy.py` and the
notebook duplicate in
`notebooks/rtx_kg2_metanames_parquet_to_kuzu_copy_data_to_tables.py`.
The store connection is modelled as the sequence of outcomes the
statement execution produces on its first, second, ... call.  The loop
`while retry_count > 1` with `retry_count -= 1` on the primary-key
branch can start at most `max(retry_count - 1, 0)` iterations, which we
use as structural fuel; exiting via the loop condition is recorded as
`swallowed`, exiting via `break` as `completed`, and re-raising as
`raised`.  Each result carries the number of executed attempts and the
number of half-second sleeps performed. -/

inductive ExecOutcome
  | ok
  | err (msg : String)
deriving DecidableEq, Repr

inductive RunResult
  | completed (attempts sleeps : Nat)
  | swallowed (attempts sleeps : Nat)
  | raised (msg : String) (attempts sleeps : Nat)
deriving DecidableEq, Repr

def attemptsOf : RunResult → Nat
  | RunResult.completed a _ => a
  | RunResult.swallowed a _ => a
  | RunResult.raised _ a _ => a

/-- The substring matched by `"Unable to find primary key value" in str(runexc)`. -/
def primaryKeyErrText : String := "Unable to find primary key value"

/-- The exact message the notebook loader compares against with `==`. -/
def copyOnceErrText : String :=
  "Copy exception: COPY commands can only be executed once on a table."

/-- Loop body of `kz_execute_with_retries` (`kuzu_utils/kz_copy.py`). -/
def kzRetryLoop (conn : Nat → ExecOutcome) (attempt sleeps : Nat) : Nat → RunResult
  | 0 => RunResult.swallowed attempt sleeps
  | fuel + 1 =>
    match conn attempt with
    | ExecOutcome.ok => RunResult.completed (attempt + 1) sleeps
    | ExecOutcome.err msg =>
      if strContainsSub msg primaryKeyErrText then
        kzRetryLoop conn (attempt + 1) (sleeps + 1) fuel
      else
        RunResult.raised msg (attempt + 1) sleeps

/-- Embedding of `kz_execute_with_retries` from `kuzu_utils/kz_copy.py`
(default `retry_count = 5`).  `retry_count` is an `Int` because the
Python parameter admits nonpositive values. -/
def kz_execute_with_retries (conn : Nat → ExecOutcome) (retry_count : Int) : RunResult :=
  kzRetryLoop conn 0 0 (retry_count - 1).toNat

/-- Loop body of the notebook duplicate of the loader: it additionally
breaks (treating the attempt as success) when the raised message equals
`copyOnceErrText` exactly, before the primary-key substring test. -/
def kzRetryLoopNotebook (conn : Nat → ExecOutcome) (attempt sleeps : Nat) : Nat → RunResult
  | 0 => RunResult.swallowed attempt sleeps
  | fuel + 1 =>
    match conn attempt with
    | ExecOutcome.ok => RunResult.completed (attempt + 1) sleeps
    | ExecOutcome.err msg =>
      if msg = copyOnceErrText then
        RunResult.completed (attempt + 1) sleeps
      else if strContainsSub msg primaryKeyErrText then
        kzRetryLoopNotebook conn (attempt + 1) (sleeps + 1) fuel
      else
        RunResult.raised msg (attempt + 1) sleeps

/-- Embedding of `kz_execute_with_retries` as duplicated in
`notebooks/rtx_kg2_metanames_parquet_to_kuzu_copy_data_to_tables.py`. -/
def kz_execute_with_retries_notebook (conn : Nat → ExecOutcome) (retry_count : Int) :
    RunResult :=
  kzRetryLoopNotebook conn 0 0 (retry_count - 1).toNat

/-- A store on which every execution attempt raises a RuntimeError whose
message contains the primary-key error text. -/
def alwaysPkErrConn : Nat → ExecOutcome :=
  fun _ => ExecOutcome.err "Runtime exception: Unable to find primary key value abc123."

/-- A store on which every execution attempt raises exactly the
copy-already-performed message. -/
def alwaysCopyOnceConn : Nat → ExecOutcome :=
  fun _ => ExecOutcome.err copyOnceErrText

theorem kzRetryLoop_allPk (conn : Nat → ExecOutcome)
    (h : ∀ n, ∃ m, conn n = ExecOutcome.err m ∧ strContainsSub m primaryKeyErrText = true) :
    ∀ fuel attempt sleeps,
      kzRetryLoop conn attempt sleeps fuel
        = RunResult.swallowed (attempt + fuel) (sleeps + fuel) := by
  intro fuel
  induction fuel with
  | zero => intro a s; simp [kzRetryLoop]
  | succ n ih =>
    intro a s
    obtain ⟨m, hm, hpk⟩ := h a
    simp only [kzRetryLoop, hm, hpk, if_true, ih]
    congr 1 <;> omega

/-- Claim C1 (divergence witness): with the default retry budget of 5
and a statement whose every execution raises the primary-key-not-found
RuntimeError, the loader performs only 4 execution attempts (with 4
half-second sleeps) and then returns normally, swallowing the error
rather than propagating it. -/
theorem claim_C1_retry_exhaustion_swallows :
    kz_execute_with_retries alwaysPkErrConn 5 = RunResult.swallowed 4 4 := by decide

/-- Claim C10: calling the loader with `retry_count ≤ 1` executes the
statement zero times, and a run on which every attempt fails with the
primary-key error performs exactly `max(retry_count - 1, 0)` execution
attempts, hence at most `retry_count - 1` of them. -/
theorem claim_C10_retry_budget_semantics (conn : Nat → ExecOutcome) (retry_count : Int) :
    (retry_count ≤ 1 →
      kz_execute_with_retries conn retry_count = RunResult.swallowed 0 0) ∧
    ((∀ n, ∃ m, conn n = ExecOutcome.err m ∧ strContainsSub m primaryKeyErrText = true) →
      attemptsOf (kz_execute_with_retries conn retry_count) = (retry_count - 1).toNat) := by
  constructor
  · intro hle
    have hz : (retry_count - 1).toNat = 0 := by omega
    simp [kz_execute_with_retries, hz, kzRetryLoop]
  · intro hpk
    simp [kz_execute_with_retries, kzRetryLoop_allPk conn hpk, attemptsOf]

/-- Claim C10 witness: with `retry_count = 1` and an always-failing
store, the loader executes the statement zero times. -/
theorem claim_C10_witness :
    kz_execute_with_retries alwaysPkErrConn 1 = RunResult.swallowed 0 0 ∧
    attemptsOf (kz_execute_with_retries alwaysPkErrConn 1) = ((1 : Int) - 1).toNat :=
  ⟨(claim_C10_retry_budget_semantics alwaysPkErrConn 1).1 (by decide),
   (claim_C10_retry_budget_semantics alwaysPkErrConn 1).2
     (fun _ => ⟨"Runtime exception: Unable to find primary key value abc123.",
       rfl, by decide⟩)⟩

/-- Claim C3 counterexample: the module loader
(`kuzu_utils/kz_copy.py`) re-raises the copy-already-performed error on
the first attempt instead of treating it as success, so the claim fails
for it as stated. -/
theorem claim_C3_counterexample :
    kz_execute_with_retries alwaysCopyOnceConn 5
      = RunResult.raised copyOnceErrText 1 0 := by decide

/-- Claim C3 amended: the notebook duplicate of the loader treats an
attempt that raises exactly the copy-already-performed message as
success: it returns after that single attempt without raising, without
decrementing the retry budget and without sleeping. -/
theorem claim_C3_notebook_copy_absorbed (conn : Nat → ExecOutcome) (retry_count : Int)
    (hrc : 2 ≤ retry_count) (h0 : conn 0 = ExecOutcome.err copyOnceErrText) :
    kz_execute_with_retries_notebook conn retry_count = RunResult.completed 1 0 := by
  have hk : (retry_count - 1).toNat = (retry_count - 2).toNat + 1 := by omega
  unfold kz_execute_with_retries_notebook
  rw [hk]
  simp [kzRetryLoopNotebook, h0]

/-- Claim C3 witness: the always-copy-once store with the default
budget of 5. -/
theorem claim_C3_witness :
    ((2 : Int) ≤ 5) ∧
    alwaysCopyOnceConn 0 = ExecOutcome.err copyOnceErrText ∧
    kz_execute_with_retries_notebook alwaysCopyOnceConn 5 = RunResult.completed 1 0 :=
  ⟨by decide, rfl, claim_C3_notebook_copy_absorbed alwaysCopyOnceConn 5 (by decide) rfl⟩

/-! ### Chunked item reader

Embeds `parse_items_by_topmost_item_name` from
`notebooks/rtx_kg2_functions.py`.  The streamed collection becomes the
input list; the generator becomes the list of yielded batches.
`parseLoop` carries the loop state `(chunk, limit_count)`; the final
`if chunk: yield chunk` is the base case. -/

def parseLoop {α : Type} (chunk_size limit : Nat) :
    List α → List α → Nat → List (List α)
  | [], chunk, _ => if chunk.isEmpty then [] else [chunk]
  | item :: rest, chunk, limit_count =>
    if limit = 0 ∨ limit_count < limit then
      let chunk2 := chunk ++ [item]
      if chunk2.length = chunk_size then
        chunk2 :: parseLoop chunk_size limit rest [] (limit_count + 1)
      else
        parseLoop chunk_size limit rest chunk2 limit_count
    else
      parseLoop chunk_size limit rest chunk limit_count

def parse_items_by_topmost_item_name {α : Type} (items : List α)
    (chunk_size : Nat) (limit : Nat) : List (List α) :=
  parseLoop chunk_size limit items [] 0

example : parse_items_by_topmost_item_name [0, 1, 2, 3, 4] 2 0 = [[0, 1], [2, 3], [4]] := by
  decide

theorem parseLoop_length_le {α : Type} (cs lim : Nat) (hlim : 0 < lim) :
    ∀ (items chunk : List α) (lc : Nat), chunk = [] ∨ lc < lim →
      (parseLoop cs lim items chunk lc).length ≤ lim - lc := by
  intro items
  induction items with
  | nil =>
    intro chunk lc hinv
    rcases hinv with rfl | hlt
    · simp [parseLoop]
    · by_cases hc : chunk.isEmpty
      · simp [parseLoop, hc]
      · simp only [parseLoop, hc, Bool.false_eq_true, if_false, List.length_singleton]
        omega
  | cons item rest ih =>
    intro chunk lc hinv
    by_cases hcond : lim = 0 ∨ lc < lim
    · rcases hcond with h0 | hlt
      · omega
      · by_cases hfull : (chunk ++ [item]).length = cs
        · simp only [parseLoop, if_pos (Or.inr hlt), hfull, if_true, List.length_cons]
          have := ih [] (lc + 1) (Or.inl rfl)
          omega
        · simp only [parseLoop, if_pos (Or.inr hlt), hfull, if_false]
          exact ih (chunk ++ [item]) lc (Or.inr hlt)
    · have hchunk : chunk = [] := by
        rcases hinv with rfl | hlt
        · rfl
        · exact absurd (Or.inr hlt) hcond
      simp only [parseLoop, if_neg hcond]
      exact ih chunk lc (hchunk ▸ Or.inl rfl)

theorem mem_dropLast_cons {α : Type} {c a : α} {t : List α}
    (hc : c ∈ (a :: t).dropLast) : c = a ∨ c ∈ t.dropLast := by
  cases t with
  | nil => simp at hc
  | cons b t2 =>
    rw [List.dropLast_cons₂] at hc
    exact List.mem_cons.mp hc

theorem parseLoop_dropLast_full {α : Type} (cs lim : Nat) :
    ∀ (items chunk : List α) (lc : Nat), chunk.length < cs →
      ∀ c ∈ (parseLoop cs lim items chunk lc).dropLast, c.length = cs := by
  intro items
  induction items with
  | nil =>
    intro chunk lc _ c hc
    by_cases hch : chunk.isEmpty <;> simp [parseLoop, hch] at hc
  | cons item rest ih =>
    intro chunk lc hlen c hc
    by_cases hcond : lim = 0 ∨ lc < lim
    · by_cases hfull : (chunk ++ [item]).length = cs
      · simp only [parseLoop, if_pos hcond, hfull, if_true] at hc
        rcases mem_dropLast_cons hc with rfl | hc2
        · exact hfull
        · exact ih [] (lc + 1) (by simp only [List.length_nil]; omega) c hc2
      · simp only [parseLoop, if_pos hcond, hfull, if_false] at hc
        have hlen2 : (chunk ++ [item]).length < cs := by
          simp only [List.length_append, List.length_singleton] at hfull ⊢
          omega
        exact ih (chunk ++ [item]) lc hlen2 c hc
    · simp only [parseLoop, if_neg hcond] at hc
      exact ih chunk lc hlen c hc

/-- Claim C2: with positive chunk size and limit, the reader yields at
most `limit` batches (the limit counts batches, not items), every batch
but possibly the last has exactly `chunk_size` records, and in
particular chunk size 2 with limit 1 over a 5-item collection yields
exactly one batch of 2 items. -/
theorem claim_C2_batch_limit_semantics {α : Type} (items : List α)
    (chunk_size limit : Nat) (hcs : 0 < chunk_size) (hlim : 0 < limit) :
    (parse_items_by_topmost_item_name items chunk_size limit).length ≤ limit ∧
    (∀ c ∈ (parse_items_by_topmost_item_name items chunk_size limit).dropLast,
      c.length = chunk_size) ∧
    parse_items_by_topmost_item_name [0, 1, 2, 3, 4] 2 1 = [[0, 1]] := by
  refine ⟨?_, ?_, by decide⟩
  · have := parseLoop_length_le chunk_size limit hlim items [] 0 (Or.inr hlim)
    simpa [parse_items_by_topmost_item_name] using this
  · intro c hc
    exact parseLoop_dropLast_full chunk_size limit items [] 0 (by simpa using hcs) c hc

/-- Claim C2 witness: chunk size 2, limit 1, five items. -/
theorem claim_C2_witness :
    (0 : Nat) < 2 ∧ (0 : Nat) < 1 ∧
    ((parse_items_by_topmost_item_name [0, 1, 2, 3, 4] 2 1).length ≤ 1 ∧
     (∀ c ∈ (parse_items_by_topmost_item_name [0, 1, 2, 3, 4] 2 1).dropLast,
       c.length = 2) ∧
     parse_items_by_topmost_item_name [0, 1, 2, 3, 4] 2 1 = [[0, 1]]) :=
  ⟨by decide, by decide,
    claim_C2_batch_limit_semantics [0, 1, 2, 3, 4] 2 1 (by decide) (by decide)⟩

/-! ### Row-count validation

Embeds the validation cell of `notebooks/rtx_kg2_full_json_to_parquet.py`:
the source item count is compared against the sum of per-file
`num_rows` metadata of the written parquet dataset, raising a
`ValueError` on mismatch.  The per-file row counts of a dataset written
chunk-by-chunk are exactly the lengths of the batches the reader
yielded with no limit. -/

def validate_row_counts (top_level_name : String) (source_count : Nat)
    (file_row_counts : List Nat) : Except String Unit :=
  if source_count ≠ file_row_counts.sum then
    Except.error ("Mismatch in row counts for top level object: " ++ top_level_name)
  else
    Except.ok ()

theorem parseLoop_sum_lengths_limit0 {α : Type} (cs : Nat) :
    ∀ (items chunk : List α) (lc : Nat),
      ((parseLoop cs 0 items chunk lc).map List.length).sum
        = items.length + chunk.length := by
  intro items
  induction items with
  | nil =>
    intro chunk lc
    by_cases hch : chunk.isEmpty
    · simp [parseLoop, hch, List.isEmpty_iff.mp hch]
    · simp [parseLoop, hch]
  | cons item rest ih =>
    intro chunk lc
    by_cases hfull : chunk.length + 1 = cs
    · simp [parseLoop, hfull, ih]
      omega
    · simp [parseLoop, hfull, ih]
      omega

/-- Claim C8: after writing N source records in arbitrary chunk sizes,
the summed per-file row counts equal N, so validation succeeds; and on
any source count and file row counts the validation succeeds silently
exactly when the sum matches, raising the mismatch error otherwise. -/
theorem claim_C8_row_count_validation {α : Type} (records : List α)
    (chunk_size : Nat) (top_level_name : String) (N : Nat) (counts : List Nat) :
    validate_row_counts top_level_name records.length
        ((parse_items_by_topmost_item_name records chunk_size 0).map List.length)
      = Except.ok () ∧
    validate_row_counts top_level_name N counts
      = (if N = counts.sum then Except.ok ()
         else Except.error ("Mismatch in row counts for top level object: " ++
           top_level_name)) := by
  constructor
  · have hsum := parseLoop_sum_lengths_limit0 (α := α) chunk_size records [] 0
    simp [validate_row_counts, parse_items_by_topmost_item_name, hsum]
  · by_cases h : N = counts.sum <;> simp [validate_row_counts, h]

/-! ### Operation traces of a pipeline run

`create_kuzu_tables` (`kuzu_utils/kz_create.py`) walks the `nodes`
directory then the `edges` directory issuing one CREATE statement per
table; `ingest_data_to_kuzu_tables` (`kuzu_utils/kz_copy.py`) walks
them in the same order issuing COPY statements (one per node table,
one per subject/object pair directory for edge tables).
`run_create_and_copy` (`rtx_kg2_to_kuzu/run.py`) executes all creates,
then all copies.  Each emitted operation is recorded with its kind,
whether it targets a node or relationship table, and the table name. -/

inductive OpKind
  | createTbl
  | copyTbl
deriving DecidableEq, Repr

structure KzOp where
  op : OpKind
  tbl : TblType
  table : String
deriving DecidableEq, Repr

/-- Statement trace of `create_kuzu_tables`: the gathered node table
names first (the `nodes` dataset directory), then the edge table names
(the `edges` dataset directory). -/
def create_kuzu_tables_trace (node_tables edge_tables : List String) : List KzOp :=
  (node_tables.map fun n => KzOp.mk OpKind.createTbl TblType.node n) ++
  (edge_tables.map fun n => KzOp.mk OpKind.createTbl TblType.rel n)

/-- Statement trace of `ingest_data_to_kuzu_tables`: one COPY per node
table, then for each edge table one COPY per subject/object pair
sub-directory (named `table` for a single pair, `table_pair`
otherwise). -/
def ingest_data_to_kuzu_tables_trace (node_tables : List String)
    (edge_tables : List (String × List String)) : List KzOp :=
  (node_tables.map fun n => KzOp.mk OpKind.copyTbl TblType.node n) ++
  (edge_tables.map fun t =>
    t.2.map fun pair =>
      KzOp.mk OpKind.copyTbl TblType.rel
        (if t.2.length = 1 then t.1 else t.1 ++ "_" ++ pair)).flatten

/-- Statement trace of `run_create_and_copy` (`rtx_kg2_to_kuzu/run.py`):
all creates, then all copies. -/
def run_create_and_copy_trace (node_tables : List String)
    (edge_tables : List (String × List String)) : List KzOp :=
  create_kuzu_tables_trace node_tables (edge_tables.map Prod.fst) ++
  ingest_data_to_kuzu_tables_trace node_tables edge_tables

/-- Every operation on a node table occurs strictly before every
operation on a relationship table. -/
def nodesBeforeEdges (tr : List KzOp) : Prop :=
  ∀ i j : Fin tr.length,
    (tr.get i).tbl = TblType.node → (tr.get j).tbl = TblType.rel → (i : Nat) < (j : Nat)

theorem nodesBeforeEdges_append (l1 l2 : List KzOp)
    (h1 : ∀ op ∈ l1, op.tbl = TblType.node)
    (h2 : ∀ op ∈ l2, op.tbl = TblType.rel) :
    nodesBeforeEdges (l1 ++ l2) := by
  intro i j hnode hrel
  simp only [List.get_eq_getElem] at hnode hrel
  have hi : (i : Nat) < l1.length := by
    by_contra hge
    push_neg at hge
    have hmem : (l1 ++ l2)[(i : Nat)] ∈ l2 := by
      rw [List.getElem_append_right hge]
      exact List.getElem_mem _
    rw [h2 _ hmem] at hnode
    exact absurd hnode (by simp)
  have hj : l1.length ≤ (j : Nat) := by
    by_contra hlt
    push_neg at hlt
    have hmem : (l1 ++ l2)[(j : Nat)] ∈ l1 := by
      rw [List.getElem_append_left hlt]
      exact List.getElem_mem _
    rw [h1 _ hmem] at hrel
    exact absurd hrel (by simp)
  omega

/-- Claim C4 counterexample: a run over one node table and one edge
table issues the edge-table CREATE (position 1) before the node-table
COPY (position 2), so a full run does not place every node-table
operation before every edge-table operation. -/
theorem claim_C4_counterexample :
    ¬ nodesBeforeEdges
        (run_create_and_copy_trace ["Disease"] [("affects", ["Drug_Disease"])]) := by
  intro h
  exact absurd (h ⟨2, by decide⟩ ⟨1, by decide⟩ (by decide) (by decide)) (by decide)

/-- Claim C4 amended: within each phase the ordering invariant holds:
`create_kuzu_tables` emits every node-table CREATE before every
edge-table CREATE, and `ingest_data_to_kuzu_tables` emits every
node-table COPY before every edge-table COPY; across a full run,
however, node-table copies follow edge-table creations. -/
theorem claim_C4_phase_ordering (node_tables edge_create : List String)
    (edge_tables : List (String × List String)) :
    nodesBeforeEdges (create_kuzu_tables_trace node_tables edge_create) ∧
    nodesBeforeEdges (ingest_data_to_kuzu_tables_trace node_tables edge_tables) := by
  constructor
  · apply nodesBeforeEdges_append
    · intro op hop
      obtain ⟨x, _, rfl⟩ := List.mem_map.mp hop
      rfl
    · intro op hop
      obtain ⟨x, _, rfl⟩ := List.mem_map.mp hop
      rfl
  · apply nodesBeforeEdges_append
    · intro op hop
      obtain ⟨x, _, rfl⟩ := List.mem_map.mp hop
      rfl
    · intro op hop
      obtain ⟨l, hl, hopl⟩ := List.mem_flatten.mp hop
      obtain ⟨t, _, rfl⟩ := List.mem_map.mp hl
      obtain ⟨pair, _, rfl⟩ := List.mem_map.mp hopl
      rfl

end RtxKg2
